import Mathlib

/-!
Verification of `scripts/api.py` (sd-webui-controlnet HTTP API glue).

The Python module is shallowly embedded: external collaborators (the
preprocessor registry, torch serialization, the PIL encoder, the pose
decoder and drawers) are fields of an `Env` record; the handlers become
pure Lean functions over `Env` returning an `Except` result together
with a trace of the externally visible effects (image decodes, detector
invocations, unload-hook calls).  Python's `base64` encoding of byte
strings is modelled concretely by `b64encodeBytes` / `b64decodeChars`.
-/

namespace CNApi

/-- Standard base64 alphabet, as used by Python's `base64.b64encode`. -/
def b64alphabet (n : Nat) : Char :=
  if n < 26 then Char.ofNat (65 + n)
  else if n < 52 then Char.ofNat (97 + (n - 26))
  else if n < 62 then Char.ofNat (48 + (n - 52))
  else if n = 62 then '+'
  else '/'

/-- Inverse of the base64 alphabet (value of one base64 digit). -/
def b64value (c : Char) : Nat :=
  if 'A' ≤ c ∧ c ≤ 'Z' then c.toNat - 65
  else if 'a' ≤ c ∧ c ≤ 'z' then c.toNat - 97 + 26
  else if '0' ≤ c ∧ c ≤ '9' then c.toNat - 48 + 52
  else if c = '+' then 62
  else 63

/-- Model of Python `base64.b64encode` on a byte string (bytes as `Nat < 256`),
followed by `.decode("utf-8")`: groups of three bytes become four base64
digits, with `=` padding for a final group of one or two bytes. -/
def b64encodeBytes : List Nat → List Char
  | [] => []
  | [a] => [b64alphabet (a / 4), b64alphabet (a % 4 * 16), '=', '=']
  | [a, b] => [b64alphabet (a / 4), b64alphabet (a % 4 * 16 + b / 16),
               b64alphabet (b % 16 * 4), '=']
  | a :: b :: c :: rest =>
    b64alphabet (a / 4) :: b64alphabet (a % 4 * 16 + b / 16) ::
    b64alphabet (b % 16 * 4 + c / 64) :: b64alphabet (c % 64) ::
    b64encodeBytes rest

/-- Model of Python `base64.b64decode` on a well-formed base64 text:
each group of four digits yields three bytes, or fewer at the final
padded group. -/
def b64decodeChars : List Char → List Nat
  | s0 :: s1 :: s2 :: s3 :: rest =>
    if s2 = '=' then
      [b64value s0 * 4 + b64value s1 / 16]
    else if s3 = '=' then
      [b64value s0 * 4 + b64value s1 / 16,
       b64value s1 % 16 * 16 + b64value s2 / 4]
    else
      (b64value s0 * 4 + b64value s1 / 16) ::
      (b64value s1 % 16 * 16 + b64value s2 / 4) ::
      (b64value s2 % 4 * 64 + b64value s3) ::
      b64decodeChars rest
  | _ => []

/-! ### Abstract handles for externally owned values

Raw pixel arrays (`numpy.ndarray`), in-memory `PIL.Image` objects, the
json dictionaries delivered to the pose callback, and decoded
human/animal pose objects are all opaque to `scripts/api.py`; they are
modelled as abstract handles. -/

abbrev NpArr := Nat
abbrev PILHandle := Nat
abbrev JsonDict := Nat
abbrev HumanPose := Nat
abbrev AnimalPose := Nat

/-- A dynamically typed Python value as far as `encode_to_base64` /
`torch.save` can observe it: the `isinstance` checks of
`encode_to_base64` distinguish `str`, `PIL.Image.Image` and
`np.ndarray`; every other object (e.g. a `torch.Tensor`) falls through
to the final `else`. -/
inductive PyVal where
  | str (s : String)
  | pilImage (h : PILHandle)
  | npArray (h : NpArr)
  | tensor (h : Nat)
  | other (h : Nat)
deriving DecidableEq

/-- `listStartsWith pat l` : `pat` is a leading segment of `l`. -/
def listStartsWith : List Char → List Char → Bool
  | [], _ => true
  | _, [] => false
  | p :: ps, c :: cs => p == c && listStartsWith ps cs

/-- `listContainsSeq pat l` : `pat` occurs contiguously inside `l`. -/
def listContainsSeq (pat : List Char) : List Char → Bool
  | [] => pat.isEmpty
  | c :: cs => listStartsWith pat (c :: cs) || listContainsSeq pat cs

/-- Python's substring test `pat in s`. -/
def strContains (s pat : String) : Bool :=
  listContainsSeq pat.data s.data

/-- Python `dict.get(k)`: first binding of `k` in an association list. -/
def dictGet {α : Type} (l : List (String × α)) (k : String) : Option α :=
  (l.find? (fun p => p.1 == k)).map (fun p => p.2)

/-- Python `dict.get(k, k)` with the key itself as default, as in
`global_state.reverse_preprocessor_aliases.get(module, module)`. -/
def dictGetD (l : List (String × String)) (k : String) : String :=
  (dictGet l k).getD k

/-- The fields of `external_code.ControlNetUnit` that `detect` sets and
reads (`module`, `processor_res`, `threshold_a`, `threshold_b`). -/
structure CNParams where
  module : String
  processor_res : Int
  threshold_a : Rat
  threshold_b : Rat
deriving DecidableEq

/-- A preprocessor callable from `cached_cn_preprocessors`: takes the
decoded pixel array, `res`, `thr_a`, `thr_b` and `low_vram`, and returns
`(detected_map, is_image)`; the third component is the final value of
the `JsonAcceptor` sink passed as `json_pose_callback` (`none` when the
callable never invoked the callback, otherwise the last accepted json
dictionary). -/
abbrev Processor := NpArr → Int → Rat → Rat → Bool → PyVal × Bool × Option JsonDict

/-- Pydantic request model `Person` of `render_openpose_json`. -/
structure Person where
  pose_keypoints_2d : List Rat
  hand_right_keypoints_2d : Option (List Rat)
  hand_left_keypoints_2d : Option (List Rat)
  face_keypoints_2d : Option (List Rat)
deriving DecidableEq

/-- Pydantic request model `PoseData` of `render_openpose_json`. -/
structure PoseData where
  people : List Person
  canvas_width : Int
  canvas_height : Int
deriving DecidableEq

/-- The externally owned collaborators of `scripts/api.py`:
`modules.api.api.encode_pil_to_base64`, `PIL.Image.fromarray`,
`torch.save` (as the byte string it writes), the `global_state` tables,
`external_code.to_base64_nparray`, `ControlNetUnit.bound_check_params`
(as the clamping map it applies to the unit), and the
`annotator.openpose` decoding/drawing routines. -/
structure Env where
  encode_pil_to_base64 : PILHandle → String
  fromarray : NpArr → PILHandle
  torch_save : PyVal → List Nat
  reverse_preprocessor_aliases : List (String × String)
  cached_cn_preprocessors : List (String × Processor)
  cn_preprocessor_unloadable : List String
  to_base64_nparray : String → NpArr
  bound_check_params : CNParams → CNParams
  decode_json_as_poses : PoseData → List HumanPose × List AnimalPose × Int × Int
  draw_poses : List HumanPose → Int → Int → PyVal
  draw_animalposes : List AnimalPose → Int → Int → PyVal

/-- `encode_np_to_base64` of `scripts/api.py`: build a PIL image with
`Image.fromarray` and encode it. -/
def encode_np_to_base64 (env : Env) (image : NpArr) : String :=
  env.encode_pil_to_base64 (env.fromarray image)

/-- `encode_to_base64` of `scripts/api.py`: a `str` is returned
unchanged, a PIL image and an ndarray are base64-encoded, anything else
yields `""`. -/
def encode_to_base64 (env : Env) (image : PyVal) : String :=
  match image with
  | .str s => s
  | .pilImage h => env.encode_pil_to_base64 h
  | .npArray h => encode_np_to_base64 env h
  | .tensor _ => ""
  | .other _ => ""

/-- `encode_tensor_to_base64` of `scripts/api.py`: `torch.save` the
object into a fresh buffer and base64-encode the buffer's bytes.
`torch_save` stands for the byte string `torch.save` writes (torch
serializes arbitrary picklable objects, hence the generic type). -/
def encode_tensor_to_base64 {Tensor : Type} (torch_save : Tensor → List Nat)
    (obj : Tensor) : String :=
  String.mk (b64encodeBytes (torch_save obj))

/-! ### The `/controlnet/detect` handler -/

/-- The body parameters of `POST /controlnet/detect`, with their
declared defaults. -/
structure DetectReq where
  controlnet_module : String := "none"
  controlnet_input_images : List String := []
  controlnet_processor_res : Int := -1
  controlnet_threshold_a : Rat := -1
  controlnet_threshold_b : Rat := -1
  low_vram : Bool := false
deriving DecidableEq

/-- How a handler can abort: a raised `fastapi.HTTPException`, or a
failed `assert` (an unhandled server error). -/
inductive DetectError where
  | httpException (status : Nat) (detail : String)
  | assertionError
deriving DecidableEq

/-- Externally visible steps the `detect` handler performs:
constructing the `ControlNetUnit`, decoding one input image with
`to_base64_nparray`, invoking the preprocessor callable on one decoded
image, and calling the registry's unload hook. -/
inductive Effect where
  | buildUnit
  | decodeImage (s : String)
  | callProcessor (module : String) (img : NpArr)
  | callUnload (module : String)
deriving DecidableEq

/-- The response dictionary of `detect`: key `info` always present,
keys `images`, `poses`, `tensor` present only when set. -/
structure DetectResp where
  info : String
  images : Option (List String) := none
  poses : Option (List JsonDict) := none
  tensor : Option (List String) := none
deriving DecidableEq

/-- The `for input_image in controlnet_input_images` loop of `detect`:
decode the image, call the preprocessor, append `detected_map` to
`results`; for a module whose name contains `"openpose"`, `assert` that
the json callback fired and append its value to `poses`.  Returns the
final `(results, poses, is_image)` (the Python loop variable `is_image`
keeps the flag of the last processed image) together with the effect
trace; a failed assert aborts the loop. -/
def detectLoop (env : Env) (proc : Processor) (controlnet_module : String)
    (unit : CNParams) (low_vram : Bool) :
    List String → List PyVal → List JsonDict → Bool →
    Except DetectError (List PyVal × List JsonDict × Bool) × List Effect
  | [], results, poses, is_image => (.ok (results, poses, is_image), [])
  | input_image :: rest, results, poses, _ =>
    let img := env.to_base64_nparray input_image
    let out := proc img unit.processor_res unit.threshold_a unit.threshold_b low_vram
    let tr0 : List Effect := [.decodeImage input_image, .callProcessor controlnet_module img]
    if strContains controlnet_module "openpose" then
      match out.2.2 with
      | none => (.error .assertionError, tr0)
      | some v =>
        let r := detectLoop env proc controlnet_module unit low_vram rest
          (results ++ [out.1]) (poses ++ [v]) out.2.1
        (r.1, tr0 ++ r.2)
    else
      let r := detectLoop env proc controlnet_module unit low_vram rest
        (results ++ [out.1]) poses out.2.1
      (r.1, tr0 ++ r.2)

/-- The `detect` handler of `scripts/api.py`: resolve aliases, run the
three 422 validations, build and bound-check the `ControlNetUnit`,
process every input image, fire the unload hook if the registry has
one, and build the response dictionary. -/
def detect (env : Env) (req : DetectReq) :
    Except DetectError DetectResp × List Effect :=
  let controlnet_module := dictGetD env.reverse_preprocessor_aliases req.controlnet_module
  match dictGet env.cached_cn_preprocessors controlnet_module with
  | none => (.error (.httpException 422 "Module not available"), [])
  | some processor_module =>
    if controlnet_module = "clip_vision" ∨ controlnet_module = "revision_clipvision" ∨
        controlnet_module = "revision_ignore_prompt" then
      (.error (.httpException 422 "Module not supported"), [])
    else if req.controlnet_input_images.length = 0 then
      (.error (.httpException 422 "No image selected"), [])
    else
      let unit := env.bound_check_params
        { module := controlnet_module
          processor_res := req.controlnet_processor_res
          threshold_a := req.controlnet_threshold_a
          threshold_b := req.controlnet_threshold_b }
      let r := detectLoop env processor_module controlnet_module unit req.low_vram
        req.controlnet_input_images [] [] true
      match r.1 with
      | .error e => (.error e, Effect.buildUnit :: r.2)
      | .ok (results, poses, is_image) =>
        let res : DetectResp :=
          if is_image then
            { info := "Success"
              images := some (results.map (encode_to_base64 env))
              poses := if poses.isEmpty then none else some poses
              tensor := none }
          else
            { info := "Success"
              images := none
              poses := none
              tensor := some (results.map (encode_tensor_to_base64 env.torch_save)) }
        (.ok res,
          Effect.buildUnit :: r.2 ++
            (if env.cn_preprocessor_unloadable.contains controlnet_module then
              [Effect.callUnload controlnet_module]
            else []))

/-- The canonical module name after alias resolution (first line of the
`detect` body). -/
def resolvedModule (env : Env) (req : DetectReq) : String :=
  dictGetD env.reverse_preprocessor_aliases req.controlnet_module

/-- The bound-checked `ControlNetUnit` that `detect` builds for a
request. -/
def theUnit (env : Env) (req : DetectReq) : CNParams :=
  env.bound_check_params
    { module := resolvedModule env req
      processor_res := req.controlnet_processor_res
      threshold_a := req.controlnet_threshold_a
      threshold_b := req.controlnet_threshold_b }

/-- What one preprocessor invocation of the `detect` loop returns for a
given input image string. -/
def procResult (env : Env) (proc : Processor) (unit : CNParams) (low_vram : Bool)
    (s : String) : PyVal × Bool × Option JsonDict :=
  proc (env.to_base64_nparray s) unit.processor_res unit.threshold_a unit.threshold_b low_vram

/-- The per-image preprocessor outputs of a `detect` request, in input
order. -/
def reqOutputs (env : Env) (proc : Processor) (req : DetectReq) :
    List (PyVal × Bool × Option JsonDict) :=
  req.controlnet_input_images.map (procResult env proc (theUnit env req) req.low_vram)

/-- The pose dictionaries the loop collects: the callback values of
every image when the module name contains `"openpose"`, nothing
otherwise. -/
def collectedPoses (env : Env) (proc : Processor) (req : DetectReq) : List JsonDict :=
  if strContains (resolvedModule env req) "openpose" then
    req.controlnet_input_images.filterMap
      (fun s => (procResult env proc (theUnit env req) req.low_vram s).2.2)
  else []

/-- The `is_image` flag of the last input image (the value of the
Python loop variable after the loop). -/
def lastIsImage (env : Env) (proc : Processor) (req : DetectReq) : Bool :=
  (req.controlnet_input_images.map
    (fun s => (procResult env proc (theUnit env req) req.low_vram s).2.1)).getLastD true

/-- The effect trace of the image loop: one decode and one processor
call per input image, in input order. -/
def loopTrace (env : Env) (controlnet_module : String) : List String → List Effect
  | [] => []
  | s :: rest =>
    Effect.decodeImage s :: Effect.callProcessor controlnet_module (env.to_base64_nparray s) ::
      loopTrace env controlnet_module rest

/-- Recognizes processor-invocation effects. -/
def isProcCall : Effect → Bool
  | .callProcessor _ _ => true
  | _ => false

/-- The handler outcome is a raised `HTTPException` with status 422. -/
def is422 (r : Except DetectError DetectResp) : Bool :=
  match r with
  | .error (.httpException s _) => s == 422
  | _ => false

/-- The response `detect` builds on the success path. -/
def mkResp (env : Env) (proc : Processor) (req : DetectReq) : DetectResp :=
  if lastIsImage env proc req then
    { info := "Success"
      images := some ((reqOutputs env proc req).map (fun o => encode_to_base64 env o.1))
      poses := if (collectedPoses env proc req).isEmpty then none
               else some (collectedPoses env proc req)
      tensor := none }
  else
    { info := "Success"
      images := none
      poses := none
      tensor := some ((reqOutputs env proc req).map
        (fun o => encode_tensor_to_base64 env.torch_save o.1)) }

/-- The full effect trace of a successful `detect` call. -/
def fullTrace (env : Env) (req : DetectReq) : List Effect :=
  Effect.buildUnit :: loopTrace env (resolvedModule env req) req.controlnet_input_images ++
    (if env.cn_preprocessor_unloadable.contains (resolvedModule env req) then
      [Effect.callUnload (resolvedModule env req)]
    else [])

/-! ### The `/controlnet/render_openpose_json` handler -/

/-- Which external drawing routine the inner `draw` of
`render_openpose_json` invokes. -/
inductive RenderEffect where
  | callDrawPoses (poses : List HumanPose) (H W : Int)
  | callDrawAnimalposes (animals : List AnimalPose) (H W : Int)
deriving DecidableEq

/-- The response dictionary of `render_openpose_json`: key `info`
always present, key `images` present only when set. -/
structure RenderResp where
  info : String
  images : Option (List String) := none
deriving DecidableEq

/-- The inner `draw(poses, animals, H, W)` of `render_openpose_json`:
when human poses are present, `assert` no animal poses and call
`draw_poses`; otherwise call `draw_animalposes`.  Returns the drawn
value and which routine was invoked. -/
def drawTr (env : Env) (poses : List HumanPose) (animals : List AnimalPose)
    (H W : Int) : Except DetectError PyVal × List RenderEffect :=
  if ¬poses.isEmpty then
    if animals.length = 0 then
      (.ok (env.draw_poses poses H W), [.callDrawPoses poses H W])
    else
      (.error .assertionError, [])
  else
    (.ok (env.draw_animalposes animals H W), [.callDrawAnimalposes animals H W])

/-- The list comprehension of `render_openpose_json`: decode each
payload with `decode_json_as_poses`, draw it and base64-encode the
drawn image, left to right; a failed assert aborts the comprehension. -/
def renderLoop (env : Env) : List PoseData →
    Except DetectError (List String) × List RenderEffect
  | [] => (.ok [], [])
  | pose :: rest =>
    let d := env.decode_json_as_poses pose
    let r0 := drawTr env d.1 d.2.1 d.2.2.1 d.2.2.2
    match r0.1 with
    | .error e => (.error e, r0.2)
    | .ok v =>
      let r := renderLoop env rest
      match r.1 with
      | .error e => (.error e, r0.2 ++ r.2)
      | .ok imgs => (.ok (encode_to_base64 env v :: imgs), r0.2 ++ r.2)

/-- The `render_openpose_json` handler of `scripts/api.py`: an empty
payload list yields `{"info": "No pose data detected."}` with no
`images` key; otherwise one encoded rendering per payload plus
`"info": "Success"`. -/
def render_openpose_json (env : Env) (pose_data : List PoseData) :
    Except DetectError RenderResp × List RenderEffect :=
  if pose_data.isEmpty then
    (.ok { info := "No pose data detected.", images := none }, [])
  else
    let r := renderLoop env pose_data
    match r.1 with
    | .error e => (.error e, r.2)
    | .ok imgs => (.ok { info := "Success", images := some imgs }, r.2)

/-- The encoded rendering of one payload on the success path. -/
def renderedImage (env : Env) (pose : PoseData) : String :=
  let d := env.decode_json_as_poses pose
  encode_to_base64 env
    (if ¬d.1.isEmpty then env.draw_poses d.1 d.2.2.1 d.2.2.2
     else env.draw_animalposes d.2.1 d.2.2.1 d.2.2.2)

/-- The drawing-routine call of one payload on the success path. -/
def renderedEffect (env : Env) (pose : PoseData) : RenderEffect :=
  let d := env.decode_json_as_poses pose
  if ¬d.1.isEmpty then .callDrawPoses d.1 d.2.2.1 d.2.2.2
  else .callDrawAnimalposes d.2.1 d.2.2.1 d.2.2.2

/-- A payload whose decoded structure does not mix human and animal
poses (the situation the inner `assert` rules out). -/
def validPose (env : Env) (pose : PoseData) : Prop :=
  ¬(env.decode_json_as_poses pose).1.isEmpty → (env.decode_json_as_poses pose).2.1 = []

/-! ### Concrete environments and requests for witnesses -/

/-- A baseline concrete environment: empty registries, trivial
collaborators. -/
def env0 : Env where
  encode_pil_to_base64 := fun h => toString h
  fromarray := fun h => h + 100
  torch_save := fun _ => []
  reverse_preprocessor_aliases := []
  cached_cn_preprocessors := []
  cn_preprocessor_unloadable := []
  to_base64_nparray := fun s => s.length
  bound_check_params := fun p => p
  decode_json_as_poses := fun _ => ([], [], 0, 0)
  draw_poses := fun _ _ _ => PyVal.str "H"
  draw_animalposes := fun _ _ _ => PyVal.str "A"

/-- A well-behaved image-producing preprocessor. -/
def procCW : Processor := fun _ _ _ _ _ => (.str "E", true, none)

def envCW : Env := { env0 with cached_cn_preprocessors := [("canny", procCW)] }

def reqCW : DetectReq :=
  { controlnet_module := "canny", controlnet_input_images := ["a", "b"] }

/-- An openpose preprocessor that never fires the json callback. -/
def procCE : Processor := fun _ _ _ _ _ => (.str "x", true, none)

def envCE : Env := { env0 with cached_cn_preprocessors := [("openpose", procCE)] }

def reqCE : DetectReq :=
  { controlnet_module := "openpose", controlnet_input_images := ["a"] }

/-- An openpose preprocessor that fires the callback but returns a
tensor-like output. -/
def procC9 : Processor := fun _ _ _ _ _ => (.tensor 0, false, some 5)

def envC9 : Env := { env0 with cached_cn_preprocessors := [("openpose", procC9)] }

def reqC9 : DetectReq :=
  { controlnet_module := "openpose", controlnet_input_images := ["a"] }

/-- An openpose preprocessor that fires the callback and returns an
image-like output. -/
def procC9W : Processor := fun _ _ _ _ _ => (.str "x", true, some 7)

def envC9W : Env := { env0 with cached_cn_preprocessors := [("openpose", procC9W)] }

def reqC9W : DetectReq :=
  { controlnet_module := "openpose", controlnet_input_images := ["a", "b"] }

/-- A preprocessor whose image/tensor flag differs per input image
(image-like exactly for the decoded handle `2`). -/
def procC10 : Processor := fun img _ _ _ _ => (.str "o", decide (img = 2), none)

def envC10 : Env := { env0 with cached_cn_preprocessors := [("canny", procC10)] }

def reqC10 : DetectReq :=
  { controlnet_module := "canny", controlnet_input_images := ["a", "bb"] }

def envC3 : Env := { env0 with decode_json_as_poses := fun _ => ([1], [], 2, 3) }

def poseA : PoseData := { people := [], canvas_width := 0, canvas_height := 0 }

def dataC3 : List PoseData := [poseA]

/-- Decodes to a mixed human/animal payload when `canvas_width = 1`,
to an animal-only payload otherwise. -/
def envC6 : Env :=
  { env0 with decode_json_as_poses := fun pd =>
      if pd.canvas_width = 1 then ([1], [2], 0, 0) else ([], [2], 0, 0) }

def poseP : PoseData := { people := [], canvas_width := 1, canvas_height := 0 }

def poseQ : PoseData := { people := [], canvas_width := 0, canvas_height := 0 }

/-- A toy framework-native serializer for the round-trip witness. -/
def boolSave : Bool → List Nat := fun b => [if b then 1 else 0]

/-- The matching framework-native deserializer. -/
def boolLoad : List Nat → Bool := fun bs => decide (bs = [1])

/-! ## Theorems -/

/-- Decoding one base64 digit produced by the alphabet recovers its
value. -/
theorem b64value_b64alphabet : ∀ n < 64, b64value (b64alphabet n) = n := by decide

/-- The base64 alphabet never produces the padding character. -/
theorem b64alphabet_ne_pad : ∀ n < 64, b64alphabet n ≠ '=' := by decide

/-- Base64 round trip on byte strings. -/
theorem b64_roundtrip : ∀ bs : List Nat, (∀ b ∈ bs, b < 256) →
    b64decodeChars (b64encodeBytes bs) = bs := by
  intro bs
  induction bs using b64encodeBytes.induct with
  | case1 =>
    intro _
    rfl
  | case2 a =>
    intro h
    have ha : a < 256 := h a (by simp)
    simp only [b64encodeBytes, b64decodeChars, eq_self_iff_true, if_true]
    rw [b64value_b64alphabet (a / 4) (by omega),
      b64value_b64alphabet (a % 4 * 16) (by omega)]
    simp only [List.cons.injEq, and_true]
    omega
  | case3 a b =>
    intro h
    have ha : a < 256 := h a (by simp)
    have hb : b < 256 := h b (by simp)
    simp only [b64encodeBytes, b64decodeChars,
      if_neg (b64alphabet_ne_pad (b % 16 * 4) (by omega)), eq_self_iff_true, if_true]
    rw [b64value_b64alphabet (a / 4) (by omega),
      b64value_b64alphabet (a % 4 * 16 + b / 16) (by omega),
      b64value_b64alphabet (b % 16 * 4) (by omega)]
    simp only [List.cons.injEq, and_true]
    omega
  | case4 a b c rest ih =>
    intro h
    have ha : a < 256 := h a (by simp)
    have hb : b < 256 := h b (by simp)
    have hc : c < 256 := h c (by simp)
    simp only [b64encodeBytes, b64decodeChars,
      if_neg (b64alphabet_ne_pad (b % 16 * 4 + c / 64) (by omega)),
      if_neg (b64alphabet_ne_pad (c % 64) (by omega))]
    rw [b64value_b64alphabet (a / 4) (by omega),
      b64value_b64alphabet (a % 4 * 16 + b / 16) (by omega),
      b64value_b64alphabet (b % 16 * 4 + c / 64) (by omega),
      b64value_b64alphabet (c % 64) (by omega),
      ih (fun x hx => h x (by simp [hx]))]
    simp only [List.cons.injEq, and_true]
    omega

/-- Claim C7: for every tensor, base64-decoding the string produced by
`encode_tensor_to_base64` and deserializing the bytes with the same
framework's native loader yields the original tensor.  The framework's
serializer is abstract: any `torch_save` producing bytes and any
`torch_load` inverting it on serialized data. -/
theorem encode_tensor_roundtrip {Tensor : Type} (torch_save : Tensor → List Nat)
    (torch_load : List Nat → Tensor)
    (hbytes : ∀ t, ∀ b ∈ torch_save t, b < 256)
    (hload : ∀ t, torch_load (torch_save t) = t) (t : Tensor) :
    torch_load (b64decodeChars (encode_tensor_to_base64 torch_save t).data) = t := by
  have hdata : (encode_tensor_to_base64 torch_save t).data = b64encodeBytes (torch_save t) := rfl
  rw [hdata, b64_roundtrip (torch_save t) (hbytes t), hload]

/-- Witness for C7 at a concrete two-value tensor type and serializer. -/
theorem encode_tensor_roundtrip_witness :
    boolLoad (b64decodeChars (encode_tensor_to_base64 boolSave true).data) = true :=
  encode_tensor_roundtrip boolSave boolLoad (by decide) (by decide) true

/-- Claim C5: `encode_to_base64` is total (always returns a string): a
`str` input is returned unchanged, a PIL image and a raw pixel array
are base64-encoded through the external PIL encoder, and every input of
any other type yields the empty string. -/
theorem encode_to_base64_cases (env : Env) (image : PyVal) :
    (∀ s, image = PyVal.str s → encode_to_base64 env image = s) ∧
    (∀ h, image = PyVal.pilImage h →
      encode_to_base64 env image = env.encode_pil_to_base64 h) ∧
    (∀ h, image = PyVal.npArray h →
      encode_to_base64 env image = env.encode_pil_to_base64 (env.fromarray h)) ∧
    (∀ h, image = PyVal.tensor h → encode_to_base64 env image = "") ∧
    (∀ h, image = PyVal.other h → encode_to_base64 env image = "") := by
  refine ⟨?_, ?_, ?_, ?_, ?_⟩ <;> rintro x rfl <;> rfl

/-- Witness for C5: the string case and the unsupported-type case at a
concrete environment. -/
theorem encode_to_base64_cases_witness :
    encode_to_base64 env0 (PyVal.str "abc") = "abc" ∧
    encode_to_base64 env0 (PyVal.other 3) = "" :=
  ⟨(encode_to_base64_cases env0 (PyVal.str "abc")).1 "abc" rfl,
   (encode_to_base64_cases env0 (PyVal.other 3)).2.2.2.2 3 rfl⟩

/-- Claim C4: `render_openpose_json` on the empty payload list returns
the dictionary with only `info = "No pose data detected."`, no `images`
key, performs no drawing, and raises no error. -/
theorem render_empty_list (env : Env) :
    render_openpose_json env [] =
      (Except.ok { info := "No pose data detected.", images := none }, []) := rfl

/-- Folding lemma: one preprocessor invocation of the loop body is
`procResult`. -/
theorem procResult_eq (env : Env) (proc : Processor) (unit : CNParams) (lv : Bool)
    (s : String) :
    proc (env.to_base64_nparray s) unit.processor_res unit.threshold_a unit.threshold_b lv =
      procResult env proc unit lv s := rfl

/-- When the openpose assert cannot fire, the image loop returns the
per-image outputs appended to the accumulators, the flag of the last
image, and one decode plus one processor call per image. -/
theorem detectLoop_ok_eq (env : Env) (proc : Processor) (m : String) (unit : CNParams)
    (lv : Bool) :
    ∀ (imgs : List String) (results : List PyVal) (poses : List JsonDict) (b : Bool),
    (strContains m "openpose" = true →
      ∀ s ∈ imgs, (procResult env proc unit lv s).2.2 ≠ none) →
    detectLoop env proc m unit lv imgs results poses b =
      (.ok (results ++ imgs.map (fun s => (procResult env proc unit lv s).1),
            poses ++ (if strContains m "openpose" then
                imgs.filterMap (fun s => (procResult env proc unit lv s).2.2)
              else []),
            (imgs.map (fun s => (procResult env proc unit lv s).2.1)).getLastD b),
       loopTrace env m imgs) := by
  intro imgs
  induction imgs with
  | nil =>
    intro results poses b _
    simp [detectLoop, loopTrace]
  | cons s rest ih =>
    intro results poses b h
    by_cases hop : strContains m "openpose" = true
    · have hs : (procResult env proc unit lv s).2.2 ≠ none := h hop s (by simp)
      obtain ⟨v, hv⟩ := Option.ne_none_iff_exists'.mp hs
      simp only [procResult] at hv
      simp only [detectLoop, hop, if_true, hv]
      simp only [procResult_eq]
      rw [ih (results ++ [(procResult env proc unit lv s).1]) (poses ++ [v])
        (procResult env proc unit lv s).2.1
        (fun _ t ht => h hop t (by simp [ht]))]
      simp only [procResult, loopTrace, hop, if_true, List.map_cons, List.filterMap_cons,
        hv, List.getLastD_cons, List.append_assoc, List.singleton_append, List.cons_append,
        List.nil_append, Prod.mk.injEq]
    · have hop' : strContains m "openpose" = false := by
        cases hb : strContains m "openpose"
        · rfl
        · exact absurd hb hop
      simp only [detectLoop, hop', Bool.false_eq_true, if_false]
      simp only [procResult_eq]
      rw [ih (results ++ [(procResult env proc unit lv s).1]) poses
        (procResult env proc unit lv s).2.1
        (fun hcontra => absurd hcontra hop)]
      simp only [procResult, loopTrace, hop', Bool.false_eq_true, if_false, List.map_cons,
        List.getLastD_cons, List.append_assoc, List.singleton_append, List.cons_append,
        List.nil_append, Prod.mk.injEq]

/-- When the module is openpose-like and some image's callback never
fires, the loop aborts with the assertion error. -/
theorem detectLoop_assert (env : Env) (proc : Processor) (m : String) (unit : CNParams)
    (lv : Bool) (hop : strContains m "openpose" = true) :
    ∀ (imgs : List String) (results : List PyVal) (poses : List JsonDict) (b : Bool),
    (∃ s ∈ imgs, (procResult env proc unit lv s).2.2 = none) →
    (detectLoop env proc m unit lv imgs results poses b).1 =
      Except.error DetectError.assertionError := by
  intro imgs
  induction imgs with
  | nil =>
    intro results poses b h
    simp at h
  | cons s rest ih =>
    intro results poses b h
    cases hs : (procResult env proc unit lv s).2.2 with
    | none =>
      simp only [procResult] at hs
      simp [detectLoop, hop, hs]
    | some v =>
      have hrest : ∃ t ∈ rest, (procResult env proc unit lv t).2.2 = none := by
        obtain ⟨t, ht, htn⟩ := h
        rcases List.mem_cons.mp ht with rfl | htr
        · rw [hs] at htn
          exact absurd htn (by simp)
        · exact ⟨t, htr, htn⟩
      simp only [procResult] at hs
      simp only [detectLoop, hop, if_true, hs]
      exact ih _ _ _ hrest

/-- The only error the image loop can raise is the assertion error. -/
theorem detectLoop_error_assert (env : Env) (proc : Processor) (m : String)
    (unit : CNParams) (lv : Bool) :
    ∀ (imgs : List String) (results : List PyVal) (poses : List JsonDict) (b : Bool)
      (e : DetectError),
    (detectLoop env proc m unit lv imgs results poses b).1 = Except.error e →
    e = DetectError.assertionError := by
  intro imgs
  induction imgs with
  | nil =>
    intro results poses b e h
    simp [detectLoop] at h
  | cons s rest ih =>
    intro results poses b e h
    by_cases hop : strContains m "openpose" = true
    · rcases hs : (proc (env.to_base64_nparray s) unit.processor_res unit.threshold_a
          unit.threshold_b lv).2.2 with _ | v
      · simp only [detectLoop, hop, if_true, hs] at h
        simpa using h.symm
      · simp only [detectLoop, hop, if_true, hs] at h
        exact ih _ _ _ _ h
    · have hop' : strContains m "openpose" = false := by
        cases hb : strContains m "openpose"
        · rfl
        · exact absurd hb hop
      simp only [detectLoop, hop', Bool.false_eq_true, if_false] at h
      exact ih _ _ _ _ h

/-- Filtering the loop trace for processor invocations yields exactly
one invocation per input image, in input order. -/
theorem loopTrace_filter_proc (env : Env) (m : String) :
    ∀ imgs : List String,
    (loopTrace env m imgs).filter isProcCall =
      imgs.map (fun s => Effect.callProcessor m (env.to_base64_nparray s)) := by
  intro imgs
  induction imgs with
  | nil => rfl
  | cons s rest ih =>
    simp [loopTrace, List.filter_cons, isProcCall, ih]

/-- Filtering the full success trace for processor invocations yields
exactly one invocation per input image, in input order. -/
theorem fullTrace_filter_proc (env : Env) (req : DetectReq) :
    (fullTrace env req).filter isProcCall =
      req.controlnet_input_images.map
        (fun s => Effect.callProcessor (resolvedModule env req) (env.to_base64_nparray s)) := by
  simp only [fullTrace, List.filter_cons, List.filter_append, loopTrace_filter_proc]
  cases h : env.cn_preprocessor_unloadable.contains (resolvedModule env req) <;>
    simp [isProcCall]

/-- `filterMap` keeps the length when the function returns `some`
everywhere on the list. -/
theorem length_filterMap_all_some {α β : Type} (f : α → Option β) :
    ∀ l : List α, (∀ x ∈ l, f x ≠ none) → (l.filterMap f).length = l.length := by
  intro l
  induction l with
  | nil => intro _; rfl
  | cons x rest ih =>
    intro h
    rcases hx : f x with _ | v
    · exact absurd hx (h x (by simp))
    · simp [List.filterMap_cons, hx, ih (fun t ht => h t (by simp [ht]))]

/-- `detect` on an unknown (after alias resolution) module: 422,
nothing processed. -/
theorem detect_not_available (env : Env) (req : DetectReq)
    (h : dictGet env.cached_cn_preprocessors (resolvedModule env req) = none) :
    detect env req = (Except.error (DetectError.httpException 422 "Module not available"), []) := by
  simp only [resolvedModule] at h
  simp [detect, h]

/-- `detect` on an excluded module: 422, nothing processed. -/
theorem detect_excluded (env : Env) (req : DetectReq) (proc : Processor)
    (hproc : dictGet env.cached_cn_preprocessors (resolvedModule env req) = some proc)
    (hexcl : resolvedModule env req = "clip_vision" ∨
             resolvedModule env req = "revision_clipvision" ∨
             resolvedModule env req = "revision_ignore_prompt") :
    detect env req = (Except.error (DetectError.httpException 422 "Module not supported"), []) := by
  simp only [resolvedModule] at hproc hexcl
  simp [detect, hproc, hexcl]

/-- `detect` on an empty image list: 422, nothing processed. -/
theorem detect_no_images (env : Env) (req : DetectReq) (proc : Processor)
    (hproc : dictGet env.cached_cn_preprocessors (resolvedModule env req) = some proc)
    (hexcl : ¬(resolvedModule env req = "clip_vision" ∨
               resolvedModule env req = "revision_clipvision" ∨
               resolvedModule env req = "revision_ignore_prompt"))
    (hemp : req.controlnet_input_images = []) :
    detect env req = (Except.error (DetectError.httpException 422 "No image selected"), []) := by
  simp only [resolvedModule] at hproc hexcl
  simp [detect, hproc, hexcl, hemp]

/-- Characterization of `detect` on the success path: validation
passes and the openpose assert cannot fire. -/
theorem detect_ok_char (env : Env) (req : DetectReq) (proc : Processor)
    (hproc : dictGet env.cached_cn_preprocessors (resolvedModule env req) = some proc)
    (hexcl : ¬(resolvedModule env req = "clip_vision" ∨
               resolvedModule env req = "revision_clipvision" ∨
               resolvedModule env req = "revision_ignore_prompt"))
    (hne : req.controlnet_input_images ≠ [])
    (hassert : strContains (resolvedModule env req) "openpose" = true →
      ∀ s ∈ req.controlnet_input_images,
        (procResult env proc (theUnit env req) req.low_vram s).2.2 ≠ none) :
    detect env req = (Except.ok (mkResp env proc req), fullTrace env req) := by
  have hlen : ¬req.controlnet_input_images.length = 0 := by
    simpa [List.length_eq_zero] using hne
  simp only [resolvedModule] at hproc hexcl
  simp only [theUnit, resolvedModule] at hassert
  simp only [detect, hproc, if_neg hexcl, if_neg hlen]
  rw [detectLoop_ok_eq env proc _ _ req.low_vram req.controlnet_input_images [] [] true hassert]
  simp only [mkResp, fullTrace, reqOutputs, collectedPoses, lastIsImage, theUnit,
    resolvedModule, List.nil_append, List.map_map, Function.comp_def]

/-- Characterization of `detect` on the assertion-failure path. -/
theorem detect_err_char (env : Env) (req : DetectReq) (proc : Processor)
    (hproc : dictGet env.cached_cn_preprocessors (resolvedModule env req) = some proc)
    (hexcl : ¬(resolvedModule env req = "clip_vision" ∨
               resolvedModule env req = "revision_clipvision" ∨
               resolvedModule env req = "revision_ignore_prompt"))
    (hne : req.controlnet_input_images ≠ [])
    (hop : strContains (resolvedModule env req) "openpose" = true)
    (hmiss : ∃ s ∈ req.controlnet_input_images,
      (procResult env proc (theUnit env req) req.low_vram s).2.2 = none) :
    (detect env req).1 = Except.error DetectError.assertionError := by
  have hlen : ¬req.controlnet_input_images.length = 0 := by
    simpa [List.length_eq_zero] using hne
  have herr := detectLoop_assert env proc (resolvedModule env req) (theUnit env req)
    req.low_vram hop req.controlnet_input_images [] [] true hmiss
  simp only [theUnit, resolvedModule] at herr
  simp only [resolvedModule] at hproc hexcl
  simp only [detect, hproc, if_neg hexcl, if_neg hlen]
  rcases hr : detectLoop env proc (dictGetD env.reverse_preprocessor_aliases req.controlnet_module)
      (env.bound_check_params
        { module := dictGetD env.reverse_preprocessor_aliases req.controlnet_module
          processor_res := req.controlnet_processor_res
          threshold_a := req.controlnet_threshold_a
          threshold_b := req.controlnet_threshold_b }) req.low_vram
      req.controlnet_input_images [] [] true with ⟨a, tr⟩
  rw [hr] at herr
  simp only at herr
  subst herr
  simp

/-- A request that passes all three validations never yields a 422. -/
theorem detect_not_422_of_valid (env : Env) (req : DetectReq) (proc : Processor)
    (hproc : dictGet env.cached_cn_preprocessors (resolvedModule env req) = some proc)
    (hexcl : ¬(resolvedModule env req = "clip_vision" ∨
               resolvedModule env req = "revision_clipvision" ∨
               resolvedModule env req = "revision_ignore_prompt"))
    (hne : req.controlnet_input_images ≠ []) :
    is422 (detect env req).1 = false := by
  have hlen : ¬req.controlnet_input_images.length = 0 := by
    simpa [List.length_eq_zero] using hne
  simp only [resolvedModule] at hproc hexcl
  simp only [detect, hproc, if_neg hexcl, if_neg hlen]
  rcases hr : detectLoop env proc (dictGetD env.reverse_preprocessor_aliases req.controlnet_module)
      (env.bound_check_params
        { module := dictGetD env.reverse_preprocessor_aliases req.controlnet_module
          processor_res := req.controlnet_processor_res
          threshold_a := req.controlnet_threshold_a
          threshold_b := req.controlnet_threshold_b }) req.low_vram
      req.controlnet_input_images [] [] true with ⟨a, tr⟩
  rcases a with e | ⟨results, poses, is_image⟩
  · have he : e = DetectError.assertionError := by
      apply detectLoop_error_assert env proc _ _ req.low_vram req.controlnet_input_images
        [] [] true
      rw [hr]
    subst he
    simp [is422]
  · simp [is422]

/-- Claim C1: `detect` raises HTTP 422 if and only if the module name
after alias resolution is not in the cached preprocessor table, or is
one of the three excluded modules, or the input image list is empty —
and no other input condition is validated with a 422. -/
theorem detect_422_iff (env : Env) (req : DetectReq) :
    is422 (detect env req).1 = true ↔
      (dictGet env.cached_cn_preprocessors (resolvedModule env req) = none ∨
       resolvedModule env req ∈
         (["clip_vision", "revision_clipvision", "revision_ignore_prompt"] : List String) ∨
       req.controlnet_input_images = []) := by
  rcases hd : dictGet env.cached_cn_preprocessors (resolvedModule env req) with _ | proc
  · rw [detect_not_available env req hd]
    simp [is422]
  · by_cases hexcl : resolvedModule env req = "clip_vision" ∨
        resolvedModule env req = "revision_clipvision" ∨
        resolvedModule env req = "revision_ignore_prompt"
    · rw [detect_excluded env req proc hd hexcl]
      simp only [is422, beq_self_eq_true, true_iff]
      exact Or.inr (Or.inl (by simpa using hexcl))
    · by_cases hemp : req.controlnet_input_images = []
      · rw [detect_no_images env req proc hd hexcl hemp]
        simp [is422, hemp]
      · rw [detect_not_422_of_valid env req proc hd hexcl hemp]
        simp only [Bool.false_eq_true, false_iff]
        push_neg
        refine ⟨by simp [hd], by simpa using hexcl, hemp⟩

/-- Claim C8: every 422 rejection happens before any processing — when
`detect` raises a 422, the effect trace is empty: no `ControlNetUnit`
is constructed, no input image is decoded, the preprocessor is never
invoked, and the unload hook is not called. -/
theorem detect_422_no_processing (env : Env) (req : DetectReq)
    (h : is422 (detect env req).1 = true) :
    (detect env req).2 = [] := by
  rcases hd : dictGet env.cached_cn_preprocessors (resolvedModule env req) with _ | proc
  · rw [detect_not_available env req hd]
  · by_cases hexcl : resolvedModule env req = "clip_vision" ∨
        resolvedModule env req = "revision_clipvision" ∨
        resolvedModule env req = "revision_ignore_prompt"
    · rw [detect_excluded env req proc hd hexcl]
    · by_cases hemp : req.controlnet_input_images = []
      · rw [detect_no_images env req proc hd hexcl hemp]
      · rw [detect_not_422_of_valid env req proc hd hexcl hemp] at h
        exact absurd h (by simp)

/-- Witness for C8: the default request against an empty registry is
rejected with 422 and has an empty effect trace. -/
theorem detect_422_no_processing_witness :
    is422 (detect env0 {}).1 = true ∧ (detect env0 {}).2 = [] :=
  ⟨rfl, detect_422_no_processing env0 {} rfl⟩

/-- Claim C2 (amended): for every detect request that passes the three
validations and whose processing raises no assertion error (for
openpose-like modules the callback must deliver pose data for every
image), the preprocessor is invoked exactly once per input image in
input order, and the response has info `"Success"` with exactly one
encoded output per input image in input order — base64 images (plus the
collected poses when nonempty) when the last output is image-like,
base64-encoded serialized tensors otherwise. -/
theorem detect_success_shape (env : Env) (req : DetectReq) (proc : Processor)
    (hproc : dictGet env.cached_cn_preprocessors (resolvedModule env req) = some proc)
    (hexcl : ¬(resolvedModule env req = "clip_vision" ∨
               resolvedModule env req = "revision_clipvision" ∨
               resolvedModule env req = "revision_ignore_prompt"))
    (hne : req.controlnet_input_images ≠ [])
    (hassert : strContains (resolvedModule env req) "openpose" = true →
      ∀ s ∈ req.controlnet_input_images,
        (procResult env proc (theUnit env req) req.low_vram s).2.2 ≠ none) :
    ∃ res, (detect env req).1 = Except.ok res ∧
      res.info = "Success" ∧
      (detect env req).2.filter isProcCall =
        req.controlnet_input_images.map
          (fun s => Effect.callProcessor (resolvedModule env req) (env.to_base64_nparray s)) ∧
      (lastIsImage env proc req = true →
        res.images = some ((reqOutputs env proc req).map (fun o => encode_to_base64 env o.1)) ∧
        res.poses = (if (collectedPoses env proc req).isEmpty then none
                     else some (collectedPoses env proc req)) ∧
        res.tensor = none) ∧
      (lastIsImage env proc req = false →
        res.tensor = some ((reqOutputs env proc req).map
          (fun o => encode_tensor_to_base64 env.torch_save o.1)) ∧
        res.images = none ∧ res.poses = none) ∧
      (∀ l, res.images = some l → l.length = req.controlnet_input_images.length) ∧
      (∀ l, res.tensor = some l → l.length = req.controlnet_input_images.length) := by
  have hchar := detect_ok_char env req proc hproc hexcl hne hassert
  refine ⟨mkResp env proc req, by rw [hchar], ?_, ?_, ?_, ?_, ?_, ?_⟩
  · by_cases hli : lastIsImage env proc req <;> simp [mkResp, hli]
  · rw [hchar]
    exact fullTrace_filter_proc env req
  · intro hli
    simp [mkResp, hli]
  · intro hli
    simp [mkResp, hli]
  · intro l hl
    by_cases hli : lastIsImage env proc req
    · simp only [mkResp, hli, if_true, Option.some.injEq] at hl
      subst hl
      simp [reqOutputs]
    · simp [mkResp, hli] at hl
  · intro l hl
    by_cases hli : lastIsImage env proc req
    · simp [mkResp, hli] at hl
    · simp only [mkResp, hli, Bool.false_eq_true, if_false, Option.some.injEq] at hl
      subst hl
      simp [reqOutputs]

/-- Witness for C2 at a concrete two-image request against a
well-behaved image-producing preprocessor: the last (and every) output
is image-like, so both outputs land under `images`. -/
theorem detect_success_shape_witness :
    lastIsImage envCW procCW reqCW = true ∧
    ∃ res, (detect envCW reqCW).1 = Except.ok res ∧ res.info = "Success" ∧
      res.images = some ["E", "E"] ∧ res.tensor = none := by
  refine ⟨rfl, ?_⟩
  obtain ⟨res, h1, h2, _, himg, _, _, _⟩ := detect_success_shape envCW reqCW procCW rfl
    (by decide) (by decide) (fun h => absurd h (by decide))
  obtain ⟨hi, _, ht⟩ := himg rfl
  have hE : ((reqOutputs envCW procCW reqCW).map (fun o => encode_to_base64 envCW o.1)) =
      ["E", "E"] := rfl
  exact ⟨res, h1, h2, by rw [hi, hE], ht⟩

/-- Counterexample to C2 as stated: a request that passes all three
validations (module `"openpose"` is cached, not excluded, one input
image) but whose preprocessor never fires the pose callback ends in an
`AssertionError`, not in a `"Success"` response. -/
theorem detect_success_shape_cex :
    dictGet envCE.cached_cn_preprocessors (resolvedModule envCE reqCE) = some procCE ∧
    resolvedModule envCE reqCE ∉
      (["clip_vision", "revision_clipvision", "revision_ignore_prompt"] : List String) ∧
    reqCE.controlnet_input_images ≠ [] ∧
    (detect envCE reqCE).1 = Except.error DetectError.assertionError :=
  ⟨rfl, by decide, by decide, rfl⟩

/-- Claim C9 (amended): for a validated request whose resolved module
name contains `"openpose"`: if the callback delivers no pose data for
some input image the handler raises an `AssertionError`; if it delivers
for every image and the outputs are image-like, the response's `poses`
list has exactly one entry per input image in input order.  (With
tensor-like outputs the collected poses are dropped.)  A module whose
name does not contain `"openpose"` never produces a `poses` field. -/
theorem detect_poses_spec (env : Env) (req : DetectReq) (proc : Processor)
    (hproc : dictGet env.cached_cn_preprocessors (resolvedModule env req) = some proc)
    (hexcl : ¬(resolvedModule env req = "clip_vision" ∨
               resolvedModule env req = "revision_clipvision" ∨
               resolvedModule env req = "revision_ignore_prompt"))
    (hne : req.controlnet_input_images ≠ []) :
    (strContains (resolvedModule env req) "openpose" = true →
      ((∃ s ∈ req.controlnet_input_images,
          (procResult env proc (theUnit env req) req.low_vram s).2.2 = none) →
        (detect env req).1 = Except.error DetectError.assertionError) ∧
      ((∀ s ∈ req.controlnet_input_images,
          (procResult env proc (theUnit env req) req.low_vram s).2.2 ≠ none) →
        lastIsImage env proc req = true →
        ∀ res, (detect env req).1 = Except.ok res →
          res.poses = some (collectedPoses env proc req) ∧
          (collectedPoses env proc req).length = req.controlnet_input_images.length)) ∧
    (strContains (resolvedModule env req) "openpose" = false →
      ∀ res, (detect env req).1 = Except.ok res → res.poses = none) := by
  constructor
  · intro hop
    constructor
    · intro hmiss
      exact detect_err_char env req proc hproc hexcl hne hop hmiss
    · intro hall hli res hres
      have hchar := detect_ok_char env req proc hproc hexcl hne (fun _ => hall)
      rw [hchar] at hres
      simp only [Except.ok.injEq] at hres
      subst hres
      have hlen : (collectedPoses env proc req).length =
          req.controlnet_input_images.length := by
        simp only [collectedPoses, hop, if_true]
        exact length_filterMap_all_some _ _ hall
      have hnonempty : ¬(collectedPoses env proc req).isEmpty = true := by
        rw [List.isEmpty_iff]
        intro hc
        rw [hc] at hlen
        exact hne (List.length_eq_zero.mp hlen.symm)
      refine ⟨?_, hlen⟩
      simp [mkResp, hli, hnonempty]
  · intro hop res hres
    have hchar := detect_ok_char env req proc hproc hexcl hne
      (fun h => absurd h (by simp [hop]))
    rw [hchar] at hres
    simp only [Except.ok.injEq] at hres
    subst hres
    by_cases hli : lastIsImage env proc req <;>
      simp [mkResp, hli, collectedPoses, hop]

/-- Witness for C9 at a concrete two-image openpose request whose
callback always delivers and whose outputs are image-like. -/
theorem detect_poses_spec_witness :
    ((mkResp envC9W procC9W reqC9W).poses = some (collectedPoses envC9W procC9W reqC9W) ∧
     (collectedPoses envC9W procC9W reqC9W).length =
       reqC9W.controlnet_input_images.length) ∧
    collectedPoses envC9W procC9W reqC9W = [7, 7] := by
  refine ⟨?_, rfl⟩
  exact ((detect_poses_spec envC9W reqC9W procC9W rfl (by decide) (by decide)).1
    (by decide)).2 (by decide) rfl (mkResp envC9W procC9W reqC9W) rfl

/-- Counterexample to C9 as stated: a validated openpose request whose
callback delivers pose data for its (single) input image, but whose
output is tensor-like — the response carries a `tensor` field and no
`poses` field at all, though the claim promises one entry per image. -/
theorem detect_poses_spec_cex :
    dictGet envC9.cached_cn_preprocessors (resolvedModule envC9 reqC9) = some procC9 ∧
    strContains (resolvedModule envC9 reqC9) "openpose" = true ∧
    (∀ s ∈ reqC9.controlnet_input_images,
      (procResult envC9 procC9 (theUnit envC9 reqC9) reqC9.low_vram s).2.2 ≠ none) ∧
    (detect envC9 reqC9).1 =
      Except.ok { info := "Success", images := none, poses := none, tensor := some [""] } :=
  ⟨rfl, by decide, by decide, rfl⟩

/-- Claim C10: the choice between the `images` and the `tensor`
encoding of a successful detect response is determined solely by the
image/tensor flag the preprocessor returned for the *last* input image:
all outputs (including those of earlier images with a different flag)
are encoded according to that last flag. -/
theorem detect_last_flag (env : Env) (req : DetectReq) (proc : Processor)
    (hproc : dictGet env.cached_cn_preprocessors (resolvedModule env req) = some proc)
    (hexcl : ¬(resolvedModule env req = "clip_vision" ∨
               resolvedModule env req = "revision_clipvision" ∨
               resolvedModule env req = "revision_ignore_prompt"))
    (hne : req.controlnet_input_images ≠ [])
    (res : DetectResp) (hres : (detect env req).1 = Except.ok res) :
    (lastIsImage env proc req = true →
      res.images = some ((reqOutputs env proc req).map (fun o => encode_to_base64 env o.1)) ∧
      res.tensor = none) ∧
    (lastIsImage env proc req = false →
      res.tensor = some ((reqOutputs env proc req).map
        (fun o => encode_tensor_to_base64 env.torch_save o.1)) ∧
      res.images = none) := by
  by_cases hall : strContains (resolvedModule env req) "openpose" = true →
      ∀ s ∈ req.controlnet_input_images,
        (procResult env proc (theUnit env req) req.low_vram s).2.2 ≠ none
  · have hchar := detect_ok_char env req proc hproc hexcl hne hall
    rw [hchar] at hres
    simp only [Except.ok.injEq] at hres
    subst hres
    constructor
    · intro hli
      simp [mkResp, hli]
    · intro hli
      simp [mkResp, hli]
  · push_neg at hall
    obtain ⟨hop, s, hmem, hnone⟩ := hall
    have := detect_err_char env req proc hproc hexcl hne hop ⟨s, hmem, hnone⟩
    rw [this] at hres
    exact absurd hres (by simp)

/-- Witness for C10 at a request whose preprocessor returns a
tensor-like flag for the first image and an image-like flag for the
second: both outputs are encoded as images, per the last flag. -/
theorem detect_last_flag_witness :
    lastIsImage envC10 procC10 reqC10 = true ∧
    (procResult envC10 procC10 (theUnit envC10 reqC10) reqC10.low_vram "a").2.1 = false ∧
    ((mkResp envC10 procC10 reqC10).images =
       some ((reqOutputs envC10 procC10 reqC10).map (fun o => encode_to_base64 envC10 o.1)) ∧
     (mkResp envC10 procC10 reqC10).tensor = none) := by
  refine ⟨rfl, rfl, ?_⟩
  exact (detect_last_flag envC10 reqC10 procC10 rfl (by decide) (by decide)
    (mkResp envC10 procC10 reqC10) rfl).1 rfl

/-- On payloads that never trip the assert, the rendering
comprehension returns one encoded image and one drawing-routine call
per payload, in input order. -/
theorem renderLoop_ok (env : Env) :
    ∀ data : List PoseData, (∀ p ∈ data, validPose env p) →
    renderLoop env data =
      (Except.ok (data.map (renderedImage env)), data.map (renderedEffect env)) := by
  intro data
  induction data with
  | nil => intro _; rfl
  | cons p rest ih =>
    intro h
    have hp := h p (by simp)
    have hrest := ih (fun t ht => h t (by simp [ht]))
    by_cases hpe : (env.decode_json_as_poses p).1.isEmpty
    · simp [renderLoop, drawTr, hpe, hrest, renderedImage, renderedEffect]
    · have hanim : (env.decode_json_as_poses p).2.1 = [] := hp hpe
      simp [renderLoop, drawTr, hpe, hanim, hrest, renderedImage, renderedEffect]

/-- Claim C3: for every non-empty list of valid pose payloads (none
mixing human and animal poses), `render_openpose_json` returns info
`"Success"` and exactly one base64-encoded image per payload, in input
order. -/
theorem render_openpose_json_success (env : Env) (pose_data : List PoseData)
    (hne : pose_data ≠ [])
    (hvalid : ∀ p ∈ pose_data, validPose env p) :
    (render_openpose_json env pose_data).1 =
      Except.ok { info := "Success", images := some (pose_data.map (renderedImage env)) } ∧
    (pose_data.map (renderedImage env)).length = pose_data.length := by
  have hemp : ¬pose_data.isEmpty = true := by
    rw [List.isEmpty_iff]
    exact hne
  simp [render_openpose_json, hemp, renderLoop_ok env pose_data hvalid]

/-- Witness for C3 at a one-payload list decoding to a human pose. -/
theorem render_openpose_json_success_witness :
    ((render_openpose_json envC3 dataC3).1 =
       Except.ok { info := "Success", images := some (dataC3.map (renderedImage envC3)) } ∧
     (dataC3.map (renderedImage envC3)).length = dataC3.length) ∧
    dataC3.map (renderedImage envC3) = ["H"] := by
  refine ⟨?_, rfl⟩
  exact render_openpose_json_success envC3 dataC3 (by simp [dataC3])
    (by intro x hx; simp [dataC3] at hx; subst hx; exact fun _ => rfl)

/-- Claim C6: a payload decoding to both human and animal poses makes
`render_openpose_json` fail with an `AssertionError` (an unhandled
server error, not a validated 4xx response), while on a payload that
does not mix them exactly one drawing routine is invoked — the human
one when human poses are present, the animal one otherwise. -/
theorem render_mixed_payload (env : Env) (p q : PoseData)
    (hmix : ¬(env.decode_json_as_poses p).1.isEmpty ∧
      (env.decode_json_as_poses p).2.1 ≠ [])
    (hq : validPose env q) :
    (render_openpose_json env [p]).1 = Except.error DetectError.assertionError ∧
    (render_openpose_json env [q]).2 = [renderedEffect env q] := by
  constructor
  · obtain ⟨h1, h2⟩ := hmix
    have hlen : ¬(env.decode_json_as_poses p).2.1.length = 0 := by
      simpa [List.length_eq_zero] using h2
    simp [render_openpose_json, renderLoop, drawTr, h1, hlen]
  · have hv : ∀ t ∈ [q], validPose env t := by
      intro t ht
      simp at ht
      subst ht
      exact hq
    simp [render_openpose_json, renderLoop_ok env [q] hv]

/-- Witness for C6: a mixed payload aborts with the assertion error; an
animal-only payload invokes exactly the animal drawing routine. -/
theorem render_mixed_payload_witness :
    ((render_openpose_json envC6 [poseP]).1 = Except.error DetectError.assertionError ∧
     (render_openpose_json envC6 [poseQ]).2 = [renderedEffect envC6 poseQ]) ∧
    renderedEffect envC6 poseQ = RenderEffect.callDrawAnimalposes [2] 0 0 := by
  refine ⟨?_, rfl⟩
  exact render_mixed_payload envC6 poseP poseQ ⟨by decide, by decide⟩
    (fun h => absurd rfl h)

end CNApi
